import Mathlib

/-!
Verification development for the GoodWe SEMS wallbox Home Assistant integration.

The development shallowly embeds the Python sources under
custom_components/sems-wallbox:

- sems_api.py: the HTTP client wrapper (login / token cache, the status
  fetch getData with its v4-to-v3 fallbacks, and the two command calls
  change_status and set_charge_mode).  The HTTP layer is modelled by an
  environment that yields, in call order, the outcome of each login attempt
  and of each request; the client state (cached token) is threaded
  explicitly together with counters for the events the claims speak about
  (login calls, expired-token cache clears, the list of requested URLs).
- coordinator.py: the pure decision logic of _async_update_data over the
  outcome of getData.
- sensor.py, select.py, number.py, switch.py: the pure data-mapping logic
  of the entity classes (status-string mapping, charge-mode option mapping
  and command argument selection, charge-power command argument selection,
  and the switch grace-period state computation).
-/

namespace SemsWallbox

/-- JSON-like scalar values that appear in SEMS API payload fields.  Strings,
numbers and null suffice for every field the claims touch; numbers are
embedded as rationals (Python floats are embedded as the decimal rationals
their literals denote; ordering of the decimal values the UI can produce is
unaffected). -/
inductive JVal where
  | str : String → JVal
  | num : ℚ → JVal
  | jnull : JVal
deriving DecidableEq

/-- Reading dictionaries (the "data" object of a status response) are
association lists from field names to values; python dict keys are unique so
first-match lookup coincides with dict lookup. -/
abbrev Reading := List (String × JVal)

/-- Python truthiness (`bool(v)`) of the JSON scalars we model:
empty string, zero and None are falsy. -/
def JVal.truthy : JVal → Bool
  | JVal.str s => !(s.data.isEmpty)
  | JVal.num q => q != 0
  | JVal.jnull => false

/-- Substring test on character lists: does the list contain `needle` as a
contiguous run?  Mirrors the Python `in` operator on str. -/
def strContainsAux (needle : List Char) : List Char → Bool
  | [] => needle.isEmpty
  | c :: cs => List.isPrefixOf needle (c :: cs) || strContainsAux needle cs

/-- Python `needle in hay` on strings. -/
def strContains (hay needle : String) : Bool :=
  strContainsAux needle.data hay.data

/-- Python `s.endswith(post)`. -/
def strEndsWith (s post : String) : Bool :=
  List.isPrefixOf post.data.reverse s.data.reverse

/-- ASCII lower-casing of a character (the case folding `str.lower` performs
on the ASCII message texts the client compares against). -/
def lowerChar (c : Char) : Char :=
  if 65 ≤ c.toNat ∧ c.toNat ≤ 90 then Char.ofNat (c.toNat + 32) else c

/-- Python `s.lower()` (ASCII range; the compared needle
"authorization has expired" is ASCII). -/
def strToLower (s : String) : String :=
  String.mk (s.data.map lowerChar)

/-- Python `str(json.get("msg", ""))`: the msg field of a body, defaulting to
the empty string when absent. -/
def pyStrMsg (m : Option String) : String :=
  m.getD ""

/-! ## sems_api.py: module constants -/

def _LoginURL : String := "https://www.semsportal.com/api/v3/Common/CrossLogin"

def _WallboxURL_V3 : String := "https://www.semsportal.com/api/v3/EvCharger/GetCurrentChargeinfo"

def _WallboxURL_V4 : String := "https://www.semsportal.com/api/v4/EvCharger/GetEvChargerMoreView"

/-- Module switch selecting the status endpoint variant; the source ships
with the v3 variant selected. -/
def _USE_V4_STATUS : Bool := false

def _SetChargeModeURL : String := "https://www.semsportal.com/api/v3/EvCharger/SetChargeMode"

def _PowerControlURL : String := "https://www.semsportal.com/api/v3/EvCharger/Charging"

/-! ## sems_api.py: HTTP environment and client state -/

/-- Parsed JSON body of a response, restricted to the two fields the client
reads: "data" (a reading dictionary when present) and "msg" (a string when
present). -/
structure JBody where
  data : Option Reading
  msg : Option String
deriving DecidableEq

/-- Outcome of one HTTP exchange: the status code and, when the body parses
as a JSON object, its parsed form.  `json = none` models a body that
`.json()` cannot parse as a dict. -/
structure HttpResp where
  status : Nat
  json : Option JBody
deriving DecidableEq

/-- The network environment: the outcome of the n-th login call
(none = _fetch_login_token failed, i.e. a transport error, an HTTP error or
a vendor-side login error, all of which that helper catches and maps to
None) and the outcome of the n-th wallbox request (none = the request
raised a non-HTTP exception such as a timeout). -/
structure Env where
  login : Nat → Option Nat
  resp : Nat → Option HttpResp

/-- Client state threaded through the api calls: the cached token of
SemsApi._token (tokens abstracted to naturals), plus the event record the
claims are stated over: how many login calls were made, how many times the
expired-authorization branches cleared the cached token, and the URLs
requested so far in order. -/
structure W where
  token : Option Nat
  logins : Nat
  clears : Nat
  reqs : List String
deriving DecidableEq

/-- Start state with a cached token and empty event record. -/
def wCached (t : Nat) : W :=
  { token := some t, logins := 0, clears := 0, reqs := [] }

/-- Embedding of SemsApi._fetch_login_token: performs one login call against
the environment and returns the token dict (abstracted) or None. -/
def _fetch_login_token (env : Env) (w : W) : Option Nat × W :=
  (env.login w.logins, { w with logins := w.logins + 1 })

/-- Embedding of SemsApi._ensure_token: when no token is cached or a
renewal is requested, fetch a fresh one (clearing the cache and returning
False on failure); otherwise keep the cached token. -/
def _ensure_token (renew : Bool) (env : Env) (w : W) : Bool × W :=
  if w.token.isNone || renew then
    match _fetch_login_token env w with
    | (none, w1) => (false, { w1 with token := none })
    | (some t, w1) => (true, { w1 with token := some t })
  else (true, w)

/-- Embedding of SemsApi._build_headers: ensure a token (no renewal) and
build the request headers; returns false when it would raise OutOfRetries
because no token could be obtained.  The header dictionary itself carries no
information the claims mention and is not materialised. -/
def _build_headers (env : Env) (w : W) : Bool × W :=
  match _ensure_token false env w with
  | (false, w1) => (false, w1)
  | (true, w1) => (true, w1)

/-- Embedding of SemsApi._resolve_status_url, parametrised by the value of
the _USE_V4_STATUS switch. -/
def _resolve_status_url (useV4 : Bool) : String :=
  if useV4 then _WallboxURL_V4 else _WallboxURL_V3

/-- Performs one requests.post against the environment, recording the URL
in the request trace and consuming the next response. -/
def doRequest (url : String) (env : Env) (w : W) : Option HttpResp × W :=
  (env.resp w.reqs.length, { w with reqs := w.reqs ++ [url] })

/-- Exceptions getData can let escape: its own OutOfRetries, or (at the
coordinator boundary) any other executor-job exception. -/
inductive ApiExc where
  | outOfRetries : ApiExc
  | other : ApiExc
deriving DecidableEq

/-- Outcome of a command call (change_status / set_charge_mode).  The Python
functions always return None; `success` marks the clean final return,
`failure` marks every other path (ensure-token failure, non-200 or
expired-without-budget response with its warning log, and any caught
exception, including the OutOfRetries both functions swallow in their own
handler). -/
inductive CmdOutcome where
  | success : CmdOutcome
  | failure : CmdOutcome
deriving DecidableEq

/-- Embedding of the no-data v4 fallback inside getData: when the v4
endpoint is in use and the parsed body has no "data" field, and the msg
contains "成功", retry once against the v3 endpoint, taking data and msg
from the v3 body (msg keeping its previous value when the v3 body has
none).  Returns none when an exception escapes to getData's outer handler
(request failure, raise_for_status on the v3 response — which raises
exactly for the 400-599 client/server error statuses — or an unparseable
v3 body). -/
def v4NoDataFallback (useV4 : Bool) (wallboxUrl : String) (env : Env)
    (data : Option Reading) (msg : String) (w : W) :
    Option (Option Reading × String) × W :=
  if useV4 && strEndsWith wallboxUrl "GetEvChargerMoreView" && data.isNone then
    if strContains msg "成功" then
      match doRequest _WallboxURL_V3 env w with
      | (none, w1) => (none, w1)
      | (some r3, w1) =>
        if 400 ≤ r3.status ∧ r3.status < 600 then (none, w1)
        else
          match r3.json with
          | none => (none, w1)
          | some b => (some (b.data, b.msg.getD msg), w1)
    else (some (data, msg), w)
  else (some (data, msg), w)

/-- Embedding of the HTTP exchange portion of getData: the request to the
resolved status URL, the 404-fallback to v3 when the v4 endpoint is in use,
and the no-data v4 fallback; yields the final (data, msg) pair, or none
when an exception escapes to the outer handler (which makes getData return
None).  raise_for_status raises exactly for the 400-599 client/server
error statuses; outside that band the parsed body is processed. -/
def statusExchange (useV4 : Bool) (env : Env) (w : W) :
    Option (Option Reading × String) × W :=
  let wallboxUrl := _resolve_status_url useV4
  match doRequest wallboxUrl env w with
  | (none, w1) => (none, w1)
  | (some r, w1) =>
    if 400 ≤ r.status ∧ r.status < 600 then
      if useV4 && strEndsWith wallboxUrl "GetEvChargerMoreView" && r.status == 404 then
        match doRequest _WallboxURL_V3 env w1 with
        | (none, w2) => (none, w2)
        | (some r3, w2) =>
          if 400 ≤ r3.status ∧ r3.status < 600 then (none, w2)
          else
            match r3.json with
            | none => (none, w2)
            | some b => v4NoDataFallback useV4 wallboxUrl env b.data (pyStrMsg b.msg) w2
      else (none, w1)
    else
      match r.json with
      | none => (none, w1)
      | some b => v4NoDataFallback useV4 wallboxUrl env b.data (pyStrMsg b.msg) w1

/-- Recursive core of SemsApi.getData over a Nat retry budget; fuel n
corresponds to calling the Python function with maxTokenRetries = n ≥ 0
(the wrapper getData handles the negative entry check, and the recursive
call with maxTokenRetries - 1 lands in the fuel-0 branch exactly when the
Python recursion would immediately raise OutOfRetries). -/
def getDataGo (useV4 : Bool) (env : Env) (wallboxSn : String) :
    Bool → Nat → W → Except ApiExc (Option Reading) × W
  | renewToken, fuel, w =>
    match _ensure_token renewToken env w with
    | (false, w1) => (Except.ok none, w1)
    | (true, w1) =>
      match _build_headers env w1 with
      | (false, w2) => (Except.error ApiExc.outOfRetries, w2)
      | (true, w2) =>
        match statusExchange useV4 env w2 with
        | (none, w3) => (Except.ok none, w3)
        | (some (data, msg), w3) =>
          if data.isNone && strContains (strToLower msg) "authorization has expired" then
            match fuel with
            | 0 =>
              (Except.error ApiExc.outOfRetries,
                { w3 with token := none, clears := w3.clears + 1 })
            | fuel' + 1 =>
              getDataGo useV4 env wallboxSn true fuel'
                { w3 with token := none, clears := w3.clears + 1 }
          else
            match data with
            | none => (Except.ok none, w3)
            | some d => (Except.ok (some d), w3)

/-- Embedding of SemsApi.getData (parametrised by the _USE_V4_STATUS value
so that both endpoint variants can be reasoned about; the shipped behaviour
is getData _USE_V4_STATUS).  Result: error outOfRetries when the call
raises OutOfRetries, ok none when it returns None, ok (some d) when it
returns the data dictionary. -/
def getData (useV4 : Bool) (env : Env) (wallboxSn : String)
    (renewToken : Bool) (maxTokenRetries : Int) (w : W) :
    Except ApiExc (Option Reading) × W :=
  if maxTokenRetries < 0 then (Except.error ApiExc.outOfRetries, w)
  else getDataGo useV4 env wallboxSn renewToken maxTokenRetries.toNat w

/-- Expiry test shared by the two command calls:
"authorization has expired" in str(resp_json.get("msg", "")).lower(),
false when the body is not a dict. -/
def cmdExpired (respJson : Option JBody) : Bool :=
  match respJson with
  | some b => strContains (strToLower (pyStrMsg b.msg)) "authorization has expired"
  | none => false

/-- Is the "data" entry of the parsed body None (false when the body is not
a dict, matching the isinstance guard)? -/
def cmdDataIsNone (respJson : Option JBody) : Bool :=
  match respJson with
  | some b => b.data.isNone
  | none => false

/-- Recursive core of the command calls (change_status and set_charge_mode
share this control flow verbatim; only the URL and the payload differ, and
the payload never influences control flow).  Fuel n corresponds to calling
with maxTokenRetries = n ≥ 0; the retry branch requires a positive budget,
so the fuel-0 case falls to the warning return. -/
def commandGo (url : String) (env : Env) :
    Bool → Nat → W → CmdOutcome × W
  | renewToken, fuel, w =>
    match _ensure_token renewToken env w with
    | (false, w1) => (CmdOutcome.failure, w1)
    | (true, w1) =>
      match _build_headers env w1 with
      | (false, w2) => (CmdOutcome.failure, w2)
      | (true, w2) =>
        match doRequest url env w2 with
        | (none, w3) => (CmdOutcome.failure, w3)
        | (some r, w3) =>
          if r.status != 200 || (r.json.isSome && cmdDataIsNone r.json && cmdExpired r.json) then
            if r.json.isSome && cmdExpired r.json then
              match fuel with
              | 0 => (CmdOutcome.failure, w3)
              | fuel' + 1 =>
                commandGo url env true fuel'
                  { w3 with token := none, clears := w3.clears + 1 }
            else (CmdOutcome.failure, w3)
          else (CmdOutcome.success, w3)

/-- Embedding of SemsApi.change_status (start/stop charging).  The status
argument only shapes the payload, never the control flow. -/
def change_status (env : Env) (inverterSn : String) (status : Int)
    (renewToken : Bool) (maxTokenRetries : Int) (w : W) : CmdOutcome × W :=
  if maxTokenRetries < 0 then (CmdOutcome.failure, w)
  else commandGo _PowerControlURL env renewToken maxTokenRetries.toNat w

/-- Embedding of SemsApi.set_charge_mode.  The mode and chargePower
arguments only shape the payload, never the control flow. -/
def set_charge_mode (env : Env) (wallboxSn : String) (mode : JVal)
    (chargePower : Option JVal) (renewToken : Bool) (maxTokenRetries : Int)
    (w : W) : CmdOutcome × W :=
  if maxTokenRetries < 0 then (CmdOutcome.failure, w)
  else commandGo _SetChargeModeURL env renewToken maxTokenRetries.toNat w

/-! ## coordinator.py -/

/-- Reasons _async_update_data raises UpdateFailed, one per raise site
(the interpolated message details carry no further information). -/
inductive UpdateFailure where
  | tooManyRetries : UpdateFailure
  | commError : UpdateFailure
  | noData : UpdateFailure
  | missingSn : UpdateFailure
deriving DecidableEq

/-- Coordinator data: the dictionary {sn: result} returned on success. -/
abbrev CoordData := List (JVal × Reading)

/-- Embedding of SemsUpdateCoordinator._async_update_data as a function of
the outcome of the executor job running getData: OutOfRetries and any other
exception become UpdateFailed, a None result becomes UpdateFailed, a
missing or falsy "sn" field becomes UpdateFailed, and otherwise the fresh
reading is returned keyed by its serial number. -/
def _async_update_data (fetch : Except ApiExc (Option Reading)) :
    Except UpdateFailure CoordData :=
  match fetch with
  | Except.error ApiExc.outOfRetries => Except.error UpdateFailure.tooManyRetries
  | Except.error ApiExc.other => Except.error UpdateFailure.commError
  | Except.ok none => Except.error UpdateFailure.noData
  | Except.ok (some result) =>
    match List.lookup "sn" result with
    | none => Except.error UpdateFailure.missingSn
    | some sn =>
      if sn.truthy then Except.ok [(sn, result)]
      else Except.error UpdateFailure.missingSn

/-! ## sensor.py: SemsSensor -/

/-- Embedding of SemsSensor._attr_options. -/
def _attr_options : List String := ["Charging", "Standby", "Offline", "Unknown"]

/-- Embedding of the SemsSensor.state property over the reading for this
serial number: the vendor status codes map to the three display states and
everything else (a missing status included) maps to "Unknown". -/
def sensorState (data : Reading) : String :=
  let status := List.lookup "status" data
  if status == some (JVal.str "EVDetail_Status_Title_Charging") then "Charging"
  else if status == some (JVal.str "EVDetail_Status_Title_Waiting") then "Standby"
  else if status == some (JVal.str "EVDetail_Status_Title_Offline") then "Offline"
  else "Unknown"

/-! ## select.py -/

/-- Embedding of the _MODE_TO_OPTION dict. -/
def _MODE_TO_OPTION : List (Int × String) :=
  [(0, "Fast"), (1, "PV priority"), (2, "PV & battery")]

/-- Embedding of _OPTION_TO_MODE, built from _MODE_TO_OPTION by swapping
keys and values exactly as the dict comprehension does. -/
def _OPTION_TO_MODE : List (String × Int) :=
  _MODE_TO_OPTION.map (fun p => (p.2, p.1))

/-- Embedding of list(_MODE_TO_OPTION.values()), the supported_options list
the entity is constructed with. -/
def supported_options : List String :=
  _MODE_TO_OPTION.map (fun p => p.2)

/-- Embedding of InverterOperationModeEntity.async_select_option: an option
outside _OPTION_TO_MODE is refused (no call, displayed option unchanged);
otherwise the displayed option is updated optimistically and
api.set_charge_mode is called with (sn, mode, current charge power).
The result pairs the new displayed option with the call arguments, none
when no call is made. -/
def async_select_option (sn : String) (currentOption : String)
    (currentChargePower : JVal) (option : String) :
    String × Option (String × Int × JVal) :=
  match List.lookup option _OPTION_TO_MODE with
  | none => (currentOption, none)
  | some mode => (option, some (sn, mode, currentChargePower))

/-! ## number.py: SemsNumber -/

/-- Embedding of SemsNumber.native_min_value (4.2 kW). -/
def native_min_value : ℚ := 21 / 5

/-- Embedding of SemsNumber.native_max_value (11 kW). -/
def native_max_value : ℚ := 11

/-- Embedding of SemsNumber.native_step (0.1 kW). -/
def native_step : ℚ := 1 / 10

/-- Embedding of SemsNumber.async_set_native_value: reads the currently
reported chargeMode from the reading (defaulting to 0 when absent),
optimistically records the new value, and calls api.set_charge_mode with
(sn, 0 if value > 4.2 else active_mode, value).  The result pairs the
recorded native value with the call arguments (sn, mode, charge power). -/
def async_set_native_value (sn : String) (data : Reading) (value : ℚ) :
    ℚ × (String × JVal × JVal) :=
  let activeMode := (List.lookup "chargeMode" data).getD (JVal.num 0)
  (value, (sn, if (21 / 5 : ℚ) < value then JVal.num 0 else activeMode, JVal.num value))

/-! ## switch.py: SemsSwitch -/

/-- Embedding of GRACE_ON_SECONDS. -/
def GRACE_ON_SECONDS : ℚ := 130

/-- Embedding of GRACE_OFF_SECONDS. -/
def GRACE_OFF_SECONDS : ℚ := 130

/-- The grace-period record of SemsSwitch: _last_command_ts and
_last_command_target.  Monotonic loop times are embedded as rationals. -/
structure SwitchGrace where
  lastCommandTs : Option ℚ
  lastCommandTarget : Option Bool
deriving DecidableEq

/-- Python float(v) on the JSON scalars we model, after the `or 0` guard has
removed the falsy values: numbers convert to themselves.  Python would
additionally parse numeric strings, which no claim exercises; a
non-convertible value is an exception (none). -/
def pyFloatNum : JVal → Option ℚ
  | JVal.num q => some q
  | JVal.str _ => none
  | JVal.jnull => none

/-- Embedding of float(data.get("power", 0) or 0): a missing or falsy power
counts as 0, everything else is converted. -/
def powerOf (data : Reading) : Option ℚ :=
  let v := (List.lookup "power" data).getD (JVal.num 0)
  pyFloatNum (if v.truthy then v else JVal.num 0)

/-- The raw API-side on/off reading used by the switch:
status == "EVDetail_Status_Title_Charging" or power > 0. -/
def apiIsOn (data : Reading) (power : ℚ) : Bool :=
  (List.lookup "status" data == some (JVal.str "EVDetail_Status_Title_Charging"))
    || decide (0 < power)

/-- Guard `ts is not None and now - ts < grace` of the grace conditions. -/
def withinGrace (ts : Option ℚ) (now grace : ℚ) : Bool :=
  match ts with
  | some t => decide (now - t < grace)
  | none => false

/-- Embedding of SemsSwitch._compute_is_on_from_data: within the ON grace
window after an ON command an off-looking API state is overridden to True,
within the OFF grace window after an OFF command an on-looking API state is
overridden to False; otherwise the API state is returned and, when it
agrees with the last command, the grace record is cleared.  Returns the
computed is_on together with the updated grace record; none models the
exception float() would raise on a non-numeric power. -/
def _compute_is_on_from_data (st : SwitchGrace) (now : ℚ) (data : Reading) :
    Option (Bool × SwitchGrace) :=
  match powerOf data with
  | none => none
  | some power =>
    let api := apiIsOn data power
    if st.lastCommandTarget == some true
        && withinGrace st.lastCommandTs now GRACE_ON_SECONDS && !api then
      some (true, st)
    else if st.lastCommandTarget == some false
        && withinGrace st.lastCommandTs now GRACE_OFF_SECONDS && api then
      some (false, st)
    else
      let cleared : SwitchGrace :=
        match st.lastCommandTarget with
        | some target =>
          if api == target then { lastCommandTs := none, lastCommandTarget := none }
          else st
        | none => st
      some (api, cleared)

/-- Embedding of SemsSwitch.async_turn_on: records the grace info for an ON
command at the current loop time, optimistically reports on, and sends
change_status with status 1.  Result: (grace record, optimistic is_on,
status argument). -/
def async_turn_on (now : ℚ) : SwitchGrace × Bool × Int :=
  ({ lastCommandTs := some now, lastCommandTarget := some true }, true, 1)

/-- Embedding of SemsSwitch.async_turn_off: records the grace info for an
OFF command at the current loop time, optimistically reports off, and sends
change_status with status 2. -/
def async_turn_off (now : ℚ) : SwitchGrace × Bool × Int :=
  ({ lastCommandTs := some now, lastCommandTarget := some false }, false, 2)

/-! ## Concrete environments used by witnesses and counterexamples -/

/-- Environment in which every status request answers 200 with a body that
has no data field and the message "ok". -/
def envC7 : Env :=
  { login := fun _ => some 7,
    resp := fun _ => some { status := 200, json := some { data := none, msg := some "ok" } } }

/-- Environment in which the first status request answers 404 and every
later request answers 200 with a data field. -/
def envC7w : Env :=
  { login := fun _ => some 7,
    resp := fun n =>
      if n = 0 then some { status := 404, json := none }
      else
        some
          { status := 200,
            json := some { data := some [("sn", JVal.str "X")], msg := some "ok" } } }

/-- Environment in which every request answers 200 with an
expired-authorization body and every login succeeds. -/
def envExpired : Env :=
  { login := fun _ => some 9,
    resp := fun _ =>
      some
        { status := 200,
          json := some
            { data := none,
              msg := some "The Authorization has expired, please login again." } } }

/-- Environment in which every request raises a transport error. -/
def envNetDown : Env :=
  { login := fun _ => some 1, resp := fun _ => none }

/-- Environment in which every request answers 200 with a vendor-error
body: no data field and an error message that is not the expiry one. -/
def envVendorErr : Env :=
  { login := fun _ => some 2,
    resp := fun _ =>
      some { status := 200, json := some { data := none, msg := some "Operation failed" } } }

/-! ## Helper lemmas shared by the theorems -/

/-- Every status exchange requests the URL selected by the
_USE_V4_STATUS-style switch first; any v3 fallback requests come after
it. -/
theorem statusExchange_first (uv : Bool) (env : Env) (w : W) :
    (w.reqs ++ [_resolve_status_url uv]) <+: (statusExchange uv env w).2.reqs := by
  unfold statusExchange v4NoDataFallback doRequest
  rcases h0 : env.resp w.reqs.length with _ | r
  · exact List.prefix_rfl
  dsimp only
  split
  · split
    · rcases h1 : env.resp (w.reqs ++ [_resolve_status_url uv]).length with _ | r3
      · exact List.prefix_append _ _
      dsimp only
      split
      · exact List.prefix_append _ _
      rcases hj : r3.json with _ | b
      · exact List.prefix_append _ _
      dsimp only
      split
      · split
        · rcases h2 : env.resp ((w.reqs ++ [_resolve_status_url uv]) ++ [_WallboxURL_V3]).length with _ | r4
          · exact (List.prefix_append _ _).trans (List.prefix_append _ _)
          dsimp only
          split
          · exact (List.prefix_append _ _).trans (List.prefix_append _ _)
          rcases hj4 : r4.json with _ | b4
          · exact (List.prefix_append _ _).trans (List.prefix_append _ _)
          · exact (List.prefix_append _ _).trans (List.prefix_append _ _)
        · exact List.prefix_append _ _
      · exact List.prefix_append _ _
    · exact List.prefix_rfl
  rcases hj : r.json with _ | b
  · exact List.prefix_rfl
  dsimp only
  split
  · split
    · rcases h1 : env.resp (w.reqs ++ [_resolve_status_url uv]).length with _ | r3
      · exact List.prefix_append _ _
      dsimp only
      split
      · exact List.prefix_append _ _
      rcases hj3 : r3.json with _ | b3
      · exact List.prefix_append _ _
      · exact List.prefix_append _ _
    · exact List.prefix_rfl
  · exact List.prefix_rfl

/-- Closed form of lookup in the _MODE_TO_OPTION dict. -/
theorem lookupM2O_eq (m : Int) :
    List.lookup m _MODE_TO_OPTION =
      if m = 0 then some "Fast" else if m = 1 then some "PV priority"
      else if m = 2 then some "PV & battery" else none := by
  by_cases h0 : m = 0
  · subst h0; rfl
  by_cases h1 : m = 1
  · subst h1; rfl
  by_cases h2 : m = 2
  · subst h2; rfl
  have e0 : (m == (0 : Int)) = false := by simp [h0]
  have e1 : (m == (1 : Int)) = false := by simp [h1]
  have e2 : (m == (2 : Int)) = false := by simp [h2]
  simp [_MODE_TO_OPTION, List.lookup_cons, e0, e1, e2, h0, h1, h2]

/-- Closed form of lookup in the _OPTION_TO_MODE dict. -/
theorem lookupO2M_eq (o : String) :
    List.lookup o _OPTION_TO_MODE =
      if o = "Fast" then some 0 else if o = "PV priority" then some 1
      else if o = "PV & battery" then some 2 else none := by
  by_cases h0 : o = "Fast"
  · subst h0; rfl
  by_cases h1 : o = "PV priority"
  · subst h1; rfl
  by_cases h2 : o = "PV & battery"
  · subst h2; rfl
  have e0 : (o == "Fast") = false := by simp [h0]
  have e1 : (o == "PV priority") = false := by simp [h1]
  have e2 : (o == "PV & battery") = false := by simp [h2]
  simp [_OPTION_TO_MODE, _MODE_TO_OPTION, List.lookup_cons, e0, e1, e2, h0, h1, h2]

/-! ## Claim theorems -/

/-- Claim C5: for every reading, the status sensor's state is one of the
four declared options; the three vendor status codes map to Charging,
Standby and Offline respectively, and every other status value (a missing
one included) maps to Unknown. -/
theorem C5_status_sensor_enum (data : Reading) :
    (sensorState data ∈ _attr_options) ∧
    (List.lookup "status" data = some (JVal.str "EVDetail_Status_Title_Charging") →
      sensorState data = "Charging") ∧
    (List.lookup "status" data = some (JVal.str "EVDetail_Status_Title_Waiting") →
      sensorState data = "Standby") ∧
    (List.lookup "status" data = some (JVal.str "EVDetail_Status_Title_Offline") →
      sensorState data = "Offline") ∧
    (List.lookup "status" data ∉
        [some (JVal.str "EVDetail_Status_Title_Charging"),
         some (JVal.str "EVDetail_Status_Title_Waiting"),
         some (JVal.str "EVDetail_Status_Title_Offline")] →
      sensorState data = "Unknown") := by
  unfold sensorState
  refine ⟨?_, ?_, ?_, ?_, ?_⟩ <;>
    · simp only [_attr_options]
      split_ifs <;> simp_all

/-- Witness for C5 at a concrete charging reading. -/
theorem C5_status_sensor_enum_witness :
    sensorState [("status", JVal.str "EVDetail_Status_Title_Charging")] = "Charging" :=
  (C5_status_sensor_enum [("status", JVal.str "EVDetail_Status_Title_Charging")]).2.1 rfl

/-- Claim C6: the charge-mode maps are mutually inverse bijections between
the mode integers 0, 1, 2 and the labels Fast, PV priority, PV & battery;
async_select_option sends set_charge_mode with the corresponding integer
for every label of the options list, and for a label outside the list it
sends nothing and leaves the displayed option unchanged. -/
theorem C6_mode_option_bijection :
    (∀ m o, List.lookup m _MODE_TO_OPTION = some o ↔
      List.lookup o _OPTION_TO_MODE = some m) ∧
    (∀ option, option ∈ supported_options → ∃ m,
      List.lookup option _OPTION_TO_MODE = some m ∧
      List.lookup m _MODE_TO_OPTION = some option ∧
      ∀ sn cur power, async_select_option sn cur power option = (option, some (sn, m, power))) ∧
    (∀ option, option ∉ supported_options →
      ∀ sn cur power, async_select_option sn cur power option = (cur, none)) := by
  refine ⟨?_, ?_, ?_⟩
  · intro m o
    rw [lookupM2O_eq, lookupO2M_eq]
    by_cases h0 : m = 0 <;> by_cases h1 : m = 1 <;> by_cases h2 : m = 2 <;>
      by_cases g0 : o = "Fast" <;> by_cases g1 : o = "PV priority" <;>
      by_cases g2 : o = "PV & battery" <;> simp_all [eq_comm]
  · intro option hmem
    simp [supported_options, _MODE_TO_OPTION] at hmem
    rcases hmem with h | h | h <;> subst h <;>
      exact ⟨_, by decide, by decide, fun sn cur power => rfl⟩
  · intro option hmem sn cur power
    simp [supported_options, _MODE_TO_OPTION] at hmem
    unfold async_select_option
    rw [lookupO2M_eq]
    simp [hmem.1, hmem.2.1, hmem.2.2]

/-- Witness for C6: selecting the PV priority label sends mode 1 with the
stored charge power. -/
theorem C6_mode_option_bijection_witness :
    async_select_option "SN" "Fast" (JVal.num 7) "PV priority" =
      ("PV priority", some ("SN", 1, JVal.num 7)) := by
  obtain ⟨m, hm1, _, hcall⟩ :=
    C6_mode_option_bijection.2.1 "PV priority" (by decide)
  have hm : m = 1 := by rw [lookupO2M_eq] at hm1; simpa [eq_comm] using hm1
  subst hm
  exact hcall "SN" "Fast" (JVal.num 7)

/-- Claim C9: the charge-power slider is bounded to 4.2 .. 11 kW, and
async_set_native_value sends set_charge_mode with mode 0 (Fast) for a
value strictly above 4.2 kW and with the currently reported chargeMode
(default 0) otherwise, always passing the chosen value as charge power. -/
theorem C9_set_native_value (sn : String) (data : Reading) (value : ℚ) :
    native_min_value = 21 / 5 ∧ native_max_value = 11 ∧
    ((21 / 5 : ℚ) < value →
      async_set_native_value sn data value = (value, (sn, JVal.num 0, JVal.num value))) ∧
    (value ≤ (21 / 5 : ℚ) →
      async_set_native_value sn data value =
        (value, (sn, (List.lookup "chargeMode" data).getD (JVal.num 0), JVal.num value))) := by
  refine ⟨rfl, rfl, ?_, ?_⟩
  · intro h
    simp [async_set_native_value, h]
  · intro h
    simp [async_set_native_value, not_lt.mpr h]

/-- Witness for C9 at value 5 kW (above the Fast threshold). -/
theorem C9_set_native_value_witness :
    (21 / 5 : ℚ) < 5 ∧
      async_set_native_value "SN" [] 5 = (5, ("SN", JVal.num 0, JVal.num 5)) :=
  ⟨by norm_num, (C9_set_native_value "SN" [] 5).2.2.1 (by norm_num)⟩

/-- Claim C2: entering getData with a negative retry budget raises
OutOfRetries (instead of returning a value, and before any network
activity), and the coordinator converts an OutOfRetries from the fetch job
into UpdateFailed. -/
theorem C2_retries_exhausted (useV4 : Bool) (env : Env) (sn : String)
    (renew : Bool) (retries : Int) (w : W) (h : retries < 0) :
    getData useV4 env sn renew retries w = (Except.error ApiExc.outOfRetries, w) ∧
    _async_update_data (Except.error ApiExc.outOfRetries) =
      Except.error UpdateFailure.tooManyRetries := by
  refine ⟨?_, rfl⟩
  simp [getData, h]

/-- Witness for C2 at retry budget -1. -/
theorem C2_retries_exhausted_witness :
    ((-1 : Int) < 0) ∧
      getData false { login := fun _ => none, resp := fun _ => none } "SN" false (-1)
        (wCached 0) = (Except.error ApiExc.outOfRetries, wCached 0) :=
  ⟨by decide,
   (C2_retries_exhausted false { login := fun _ => none, resp := fun _ => none }
      "SN" false (-1) (wCached 0) (by decide)).1⟩

/-- Claim C4: every successful coordinator update returns a dictionary with
exactly one key, the truthy "sn" field of the fetched reading, mapped to
the entire reading (the coordinator state is rebuilt from scratch, so the
previous reading for that serial is replaced wholesale); a reading with a
missing or empty "sn" fails the update instead of being stored. -/
theorem C4_singleton_state :
    (∀ fetch out, _async_update_data fetch = Except.ok out →
      ∃ sn r, fetch = Except.ok (some r) ∧ List.lookup "sn" r = some sn ∧
        sn.truthy = true ∧ out = [(sn, r)]) ∧
    (∀ r, List.lookup "sn" r = none →
      _async_update_data (Except.ok (some r)) = Except.error UpdateFailure.missingSn) ∧
    (∀ r, List.lookup "sn" r = some (JVal.str "") →
      _async_update_data (Except.ok (some r)) = Except.error UpdateFailure.missingSn) := by
  refine ⟨?_, ?_, ?_⟩
  · intro fetch out h
    match fetch with
    | Except.error ApiExc.outOfRetries => simp [_async_update_data] at h
    | Except.error ApiExc.other => simp [_async_update_data] at h
    | Except.ok none => simp [_async_update_data] at h
    | Except.ok (some result) =>
      rcases hl : List.lookup "sn" result with _ | sn
      · simp [_async_update_data, hl] at h
      · by_cases ht : sn.truthy = true
        · refine ⟨sn, result, rfl, hl, ht, ?_⟩
          simp [_async_update_data, hl, ht] at h
          exact h.symm
        · simp [_async_update_data, hl, ht] at h
  · intro r hl
    simp [_async_update_data, hl]
  · intro r hl
    simp [_async_update_data, hl, JVal.truthy]

/-- Witness for C4: a reading without a serial number fails the update. -/
theorem C4_singleton_state_witness :
    _async_update_data (Except.ok (some [("power", JVal.num 3)])) =
      Except.error UpdateFailure.missingSn :=
  C4_singleton_state.2.1 [("power", JVal.num 3)] rfl

/-- Claim C8: _ensure_token returns True exactly when a token is cached
afterwards, returns False only with the cache cleared, and with a cached
token and no renewal request it returns True immediately, leaving the
state (login count included) untouched, so repeated calls reuse the cached
token. -/
theorem C8_token_cache_invariant (renew : Bool) (env : Env) (w : W) :
    ((_ensure_token renew env w).1 = true ↔ (_ensure_token renew env w).2.token ≠ none) ∧
    ((_ensure_token renew env w).1 = false → (_ensure_token renew env w).2.token = none) ∧
    (∀ t, w.token = some t → renew = false → _ensure_token renew env w = (true, w)) := by
  refine ⟨?_, ?_, ?_⟩
  · rcases hw : w.token with _ | t <;> cases renew <;>
      rcases hl : env.login w.logins with _ | t' <;>
      simp [_ensure_token, _fetch_login_token, hw, hl]
  · rcases hw : w.token with _ | t <;> cases renew <;>
      rcases hl : env.login w.logins with _ | t' <;>
      simp [_ensure_token, _fetch_login_token, hw, hl]
  · intro t hw hr
    subst hr
    simp [_ensure_token, hw]

/-- Witness for C8: with a cached token and no renewal request the call is
a no-op returning True. -/
theorem C8_token_cache_invariant_witness :
    _ensure_token false { login := fun _ => none, resp := fun _ => none } (wCached 3) =
      (true, wCached 3) :=
  (C8_token_cache_invariant false { login := fun _ => none, resp := fun _ => none }
      (wCached 3)).2.2 3 rfl rfl

/-- Shape of powerOf on a reading whose power field is a number: the
`or 0` guard turns a zero into the number 0, so the parsed power is the
number itself in every case. -/
theorem powerOf_num (data : Reading) (p : ℚ)
    (h : List.lookup "power" data = some (JVal.num p)) :
    powerOf data = some p := by
  by_cases hp : p = 0 <;> simp [powerOf, h, JVal.truthy, pyFloatNum, hp]

/-- Claim C10: both grace windows are 130 seconds; within the ON window
after a turn-on command an off-looking API state (status not Charging,
i.e. apiIsOn false, power 0 included) is still reported as True with the
grace record kept; within the OFF window after a turn-off command an
on-looking API state is still reported as False; and as soon as the API
state agrees with the last command the grace record is cleared and the API
state is reported directly. -/
theorem C10_switch_grace :
    GRACE_ON_SECONDS = 130 ∧ GRACE_OFF_SECONDS = 130 ∧
    (∀ t0 : ℚ, (async_turn_on t0).1 =
        { lastCommandTs := some t0, lastCommandTarget := some true } ∧
      (async_turn_off t0).1 =
        { lastCommandTs := some t0, lastCommandTarget := some false }) ∧
    (∀ data now ts p, now - ts < GRACE_ON_SECONDS →
      List.lookup "power" data = some (JVal.num p) →
      apiIsOn data p = false →
      _compute_is_on_from_data
          { lastCommandTs := some ts, lastCommandTarget := some true } now data =
        some (true, { lastCommandTs := some ts, lastCommandTarget := some true })) ∧
    (∀ data now ts p, now - ts < GRACE_OFF_SECONDS →
      List.lookup "power" data = some (JVal.num p) →
      apiIsOn data p = true →
      _compute_is_on_from_data
          { lastCommandTs := some ts, lastCommandTarget := some false } now data =
        some (false, { lastCommandTs := some ts, lastCommandTarget := some false })) ∧
    (∀ data now ts p b, List.lookup "power" data = some (JVal.num p) →
      apiIsOn data p = b →
      _compute_is_on_from_data
          { lastCommandTs := ts, lastCommandTarget := some b } now data =
        some (b, { lastCommandTs := none, lastCommandTarget := none })) := by
  refine ⟨rfl, rfl, fun t0 => ⟨rfl, rfl⟩, ?_, ?_, ?_⟩
  · intro data now ts p hlt hp hapi
    have hpow := powerOf_num data p hp
    simp [_compute_is_on_from_data, hpow, hapi, withinGrace, hlt]
  · intro data now ts p hlt hp hapi
    have hpow := powerOf_num data p hp
    simp [_compute_is_on_from_data, hpow, hapi, withinGrace, hlt]
  · intro data now ts p b hp hapi
    have hpow := powerOf_num data p hp
    cases b <;> simp [_compute_is_on_from_data, hpow, hapi]

/-- Witness for C10: 10 seconds after a turn-on command a Waiting/0 kW
reading is still reported as on. -/
theorem C10_switch_grace_witness :
    _compute_is_on_from_data
        { lastCommandTs := some 0, lastCommandTarget := some true } 10
        [("status", JVal.str "EVDetail_Status_Title_Waiting"), ("power", JVal.num 0)] =
      some (true, { lastCommandTs := some 0, lastCommandTarget := some true }) :=
  C10_switch_grace.2.2.2.1
    [("status", JVal.str "EVDetail_Status_Title_Waiting"), ("power", JVal.num 0)]
    10 0 0 (by norm_num [GRACE_ON_SECONDS]) rfl (by decide)

/-- Claim C1: with the default retry budget 1 and a cached token, an
expired-authorization response (no data, msg containing "authorization has
expired") to getData, change_status or set_charge_mode causes exactly one
clearing of the cached token followed by exactly one re-login and one
retry of the same request; when the retry is answered with a second
expired-authorization response, no further re-login happens (the login
counter stays at 1): getData raises OutOfRetries after clearing the cache
once more, and the commands give up with a failure. -/
theorem C1_expired_single_relogin (env : Env) (sn : String) (t t1 : Nat) (m0 : String)
    (hm0 : strContains (strToLower m0) "authorization has expired" = true)
    (hr0 : env.resp 0 = some { status := 200, json := some { data := none, msg := some m0 } })
    (hl : env.login 0 = some t1) :
    (∀ d m1, env.resp 1 = some { status := 200, json := some { data := some d, msg := some m1 } } →
      getData false env sn false 1 (wCached t) =
        (Except.ok (some d),
         { token := some t1, logins := 1, clears := 1,
           reqs := [_WallboxURL_V3, _WallboxURL_V3] })) ∧
    (∀ m1, env.resp 1 = some { status := 200, json := some { data := none, msg := some m1 } } →
      strContains (strToLower m1) "authorization has expired" = true →
      getData false env sn false 1 (wCached t) =
        (Except.error ApiExc.outOfRetries,
         { token := none, logins := 1, clears := 2,
           reqs := [_WallboxURL_V3, _WallboxURL_V3] })) ∧
    (∀ status m1, env.resp 1 = some { status := 200, json := some { data := none, msg := some m1 } } →
      strContains (strToLower m1) "authorization has expired" = true →
      change_status env sn status false 1 (wCached t) =
        (CmdOutcome.failure,
         { token := some t1, logins := 1, clears := 1,
           reqs := [_PowerControlURL, _PowerControlURL] })) ∧
    (∀ status d m1, env.resp 1 = some { status := 200, json := some { data := some d, msg := some m1 } } →
      change_status env sn status false 1 (wCached t) =
        (CmdOutcome.success,
         { token := some t1, logins := 1, clears := 1,
           reqs := [_PowerControlURL, _PowerControlURL] })) ∧
    (∀ mode p m1, env.resp 1 = some { status := 200, json := some { data := none, msg := some m1 } } →
      strContains (strToLower m1) "authorization has expired" = true →
      set_charge_mode env sn mode p false 1 (wCached t) =
        (CmdOutcome.failure,
         { token := some t1, logins := 1, clears := 1,
           reqs := [_SetChargeModeURL, _SetChargeModeURL] })) ∧
    (∀ mode p d m1, env.resp 1 = some { status := 200, json := some { data := some d, msg := some m1 } } →
      set_charge_mode env sn mode p false 1 (wCached t) =
        (CmdOutcome.success,
         { token := some t1, logins := 1, clears := 1,
           reqs := [_SetChargeModeURL, _SetChargeModeURL] })) := by
  refine ⟨?_, ?_, ?_, ?_, ?_, ?_⟩
  · intro d m1 hr1
    simp [getData, getDataGo, _ensure_token, _fetch_login_token, _build_headers,
      statusExchange, _resolve_status_url, doRequest, v4NoDataFallback, pyStrMsg,
      wCached, hr0, hr1, hl, hm0]
  · intro m1 hr1 hm1
    simp [getData, getDataGo, _ensure_token, _fetch_login_token, _build_headers,
      statusExchange, _resolve_status_url, doRequest, v4NoDataFallback, pyStrMsg,
      wCached, hr0, hr1, hl, hm0, hm1]
  · intro status m1 hr1 hm1
    simp [change_status, commandGo, _ensure_token, _fetch_login_token, _build_headers,
      doRequest, cmdExpired, cmdDataIsNone, pyStrMsg, wCached, hr0, hr1, hl, hm0, hm1]
  · intro status d m1 hr1
    simp [change_status, commandGo, _ensure_token, _fetch_login_token, _build_headers,
      doRequest, cmdExpired, cmdDataIsNone, pyStrMsg, wCached, hr0, hr1, hl, hm0]
  · intro mode p m1 hr1 hm1
    simp [set_charge_mode, commandGo, _ensure_token, _fetch_login_token, _build_headers,
      doRequest, cmdExpired, cmdDataIsNone, pyStrMsg, wCached, hr0, hr1, hl, hm0, hm1]
  · intro mode p d m1 hr1
    simp [set_charge_mode, commandGo, _ensure_token, _fetch_login_token, _build_headers,
      doRequest, cmdExpired, cmdDataIsNone, pyStrMsg, wCached, hr0, hr1, hl, hm0]

/-- Witness for C1: two expired-authorization responses in a row make
getData raise OutOfRetries after a single re-login. -/
theorem C1_expired_single_relogin_witness :
    getData false envExpired "SN" false 1 (wCached 4) =
      (Except.error ApiExc.outOfRetries,
       { token := none, logins := 1, clears := 2,
         reqs := [_WallboxURL_V3, _WallboxURL_V3] }) :=
  (C1_expired_single_relogin envExpired "SN" 4 9
      "The Authorization has expired, please login again." (by decide) rfl rfl).2.1
    "The Authorization has expired, please login again." rfl (by decide)

/-- Counterexample for C3 as stated: on a 200 response whose body carries
a vendor error (data absent, message not the expiry one) both change_status
and set_charge_mode take the clean success return path instead of failing,
while the very same response shape makes the status poll fail (getData
returns None). -/
theorem C3_vendor_error_counterexample :
    strContains (strToLower "Operation failed") "authorization has expired" = false ∧
    (change_status envVendorErr "SN" 1 false 1 (wCached 0)).1 = CmdOutcome.success ∧
    (set_charge_mode envVendorErr "SN" (JVal.num 0) none false 1 (wCached 0)).1 =
      CmdOutcome.success ∧
    (getData false envVendorErr "SN" false 1 (wCached 0)).1 = Except.ok none :=
  ⟨rfl, rfl, rfl, rfl⟩

/-- Claim C3 as amended: a transport error, an HTTP error status (the
400-599 band raise_for_status raises on) or a vendor error body (no data,
message not the expiry one) makes getData return None, and the coordinator
turns a None result, and any exception of the fetch job, into UpdateFailed,
failing the poll; during change_status or set_charge_mode a transport error
or a non-200 HTTP status (without an expired-authorization message) ends
the command in the failure path, but a 200 response whose body carries a
vendor error takes the clean success path and is not reported as a
failure. -/
theorem C3_errors_fail (env : Env) (sn : String) (t : Nat) :
    (env.resp 0 = none →
      (getData false env sn false 1 (wCached t)).1 = Except.ok none) ∧
    (∀ r, env.resp 0 = some r → 400 ≤ r.status → r.status < 600 →
      (getData false env sn false 1 (wCached t)).1 = Except.ok none) ∧
    (∀ b, env.resp 0 = some { status := 200, json := some b } → b.data = none →
      strContains (strToLower (pyStrMsg b.msg)) "authorization has expired" = false →
      (getData false env sn false 1 (wCached t)).1 = Except.ok none) ∧
    (_async_update_data (Except.ok none) = Except.error UpdateFailure.noData) ∧
    (∀ exc, ∃ f, _async_update_data (Except.error exc) = Except.error f) ∧
    (∀ status, env.resp 0 = none →
      (change_status env sn status false 1 (wCached t)).1 = CmdOutcome.failure) ∧
    (∀ status r, env.resp 0 = some r → r.status ≠ 200 →
      cmdExpired r.json = false →
      (change_status env sn status false 1 (wCached t)).1 = CmdOutcome.failure) ∧
    (∀ mode p, env.resp 0 = none →
      (set_charge_mode env sn mode p false 1 (wCached t)).1 = CmdOutcome.failure) ∧
    (∀ mode p r, env.resp 0 = some r → r.status ≠ 200 →
      cmdExpired r.json = false →
      (set_charge_mode env sn mode p false 1 (wCached t)).1 = CmdOutcome.failure) ∧
    (∀ status b, env.resp 0 = some { status := 200, json := some b } → b.data = none →
      strContains (strToLower (pyStrMsg b.msg)) "authorization has expired" = false →
      (change_status env sn status false 1 (wCached t)).1 = CmdOutcome.success) ∧
    (∀ mode p b, env.resp 0 = some { status := 200, json := some b } → b.data = none →
      strContains (strToLower (pyStrMsg b.msg)) "authorization has expired" = false →
      (set_charge_mode env sn mode p false 1 (wCached t)).1 = CmdOutcome.success) := by
  refine ⟨?_, ?_, ?_, rfl, ?_, ?_, ?_, ?_, ?_, ?_, ?_⟩
  · intro h0
    simp [getData, getDataGo, _ensure_token, _fetch_login_token, _build_headers,
      statusExchange, _resolve_status_url, doRequest, v4NoDataFallback, wCached, h0]
  · intro r h0 h400 h600
    simp [getData, getDataGo, _ensure_token, _fetch_login_token, _build_headers,
      statusExchange, _resolve_status_url, doRequest, v4NoDataFallback, wCached,
      h0, h400, h600]
  · intro b h0 hd hm
    simp [getData, getDataGo, _ensure_token, _fetch_login_token, _build_headers,
      statusExchange, _resolve_status_url, doRequest, v4NoDataFallback,
      wCached, h0, hd, hm]
  · intro exc
    cases exc <;> exact ⟨_, rfl⟩
  · intro status h0
    simp [change_status, commandGo, _ensure_token, _fetch_login_token, _build_headers,
      doRequest, wCached, h0]
  · intro status r h0 h200 hexp
    simp [change_status, commandGo, _ensure_token, _fetch_login_token, _build_headers,
      doRequest, wCached, h0, h200, hexp]
  · intro mode p h0
    simp [set_charge_mode, commandGo, _ensure_token, _fetch_login_token, _build_headers,
      doRequest, wCached, h0]
  · intro mode p r h0 h200 hexp
    simp [set_charge_mode, commandGo, _ensure_token, _fetch_login_token, _build_headers,
      doRequest, wCached, h0, h200, hexp]
  · intro status b h0 hd hm
    have hce : cmdExpired (some b) = false := by simp [cmdExpired, hm]
    simp [change_status, commandGo, _ensure_token, _fetch_login_token, _build_headers,
      doRequest, wCached, h0, hce]
  · intro mode p b h0 hd hm
    have hce : cmdExpired (some b) = false := by simp [cmdExpired, hm]
    simp [set_charge_mode, commandGo, _ensure_token, _fetch_login_token, _build_headers,
      doRequest, wCached, h0, hce]

/-- Witness for the amended C3: a transport error on the status request
makes getData return None. -/
theorem C3_errors_fail_witness :
    (getData false envNetDown "SN" false 1 (wCached 0)).1 = Except.ok none :=
  (C3_errors_fail envNetDown "SN" 0).1 rfl

/-- Counterexample for C7 as stated: with the v4 variant in use, a 200
response without a data field whose message does not contain "成功" is NOT
retried against the v3 endpoint; the fetch returns None after the single
v4 request (the claim asserts a v3 retry for every successful response
without a data field). -/
theorem C7_v4_fallback_counterexample :
    strContains (strToLower "ok") "authorization has expired" = false ∧
    (getData true envC7 "SN" false 1 (wCached 5)).1 = Except.ok none ∧
    (getData true envC7 "SN" false 1 (wCached 5)).2.reqs = [_WallboxURL_V4] ∧
    _WallboxURL_V3 ∉ (getData true envC7 "SN" false 1 (wCached 5)).2.reqs := by
  refine ⟨rfl, rfl, rfl, ?_⟩
  decide

/-- Claim C7 as amended: the endpoint variant is decided by the
_USE_V4_STATUS switch (shipped as v3), every status exchange requests the
switch-selected URL first, and with the v4 variant in use the fetch
retries once against v3 when the v4 endpoint answers 404, or answers
successfully without a data field with a message containing "成功"; a
successful v4 answer without a data field and without "成功" is not
retried. -/
theorem C7_v4_fallback_amended (env : Env) (sn : String) (t : Nat) :
    _USE_V4_STATUS = false ∧
    _resolve_status_url true = _WallboxURL_V4 ∧
    _resolve_status_url false = _WallboxURL_V3 ∧
    (∀ uv env2 w, (w.reqs ++ [_resolve_status_url uv]) <+: (statusExchange uv env2 w).2.reqs) ∧
    (∀ j d b1, env.resp 0 = some { status := 404, json := j } →
      env.resp 1 = some { status := 200, json := some { data := some d, msg := b1 } } →
      getData true env sn false 1 (wCached t) =
        (Except.ok (some d),
         { token := some t, logins := 0, clears := 0,
           reqs := [_WallboxURL_V4, _WallboxURL_V3] })) ∧
    (∀ m0 d b1, env.resp 0 = some { status := 200, json := some { data := none, msg := some m0 } } →
      strContains m0 "成功" = true →
      env.resp 1 = some { status := 200, json := some { data := some d, msg := b1 } } →
      getData true env sn false 1 (wCached t) =
        (Except.ok (some d),
         { token := some t, logins := 0, clears := 0,
           reqs := [_WallboxURL_V4, _WallboxURL_V3] })) ∧
    (∀ m0, env.resp 0 = some { status := 200, json := some { data := none, msg := some m0 } } →
      strContains m0 "成功" = false →
      strContains (strToLower m0) "authorization has expired" = false →
      getData true env sn false 1 (wCached t) =
        (Except.ok none,
         { token := some t, logins := 0, clears := 0, reqs := [_WallboxURL_V4] })) := by
  have hE : strEndsWith _WallboxURL_V4 "GetEvChargerMoreView" = true := by decide
  refine ⟨rfl, rfl, rfl, fun uv env2 w => statusExchange_first uv env2 w, ?_, ?_, ?_⟩
  · intro j d b1 h0 h1
    simp [getData, getDataGo, _ensure_token, _fetch_login_token, _build_headers,
      statusExchange, _resolve_status_url, doRequest, v4NoDataFallback, pyStrMsg,
      wCached, h0, h1, hE]
  · intro m0 d b1 h0 hm h1
    simp [getData, getDataGo, _ensure_token, _fetch_login_token, _build_headers,
      statusExchange, _resolve_status_url, doRequest, v4NoDataFallback, pyStrMsg,
      wCached, h0, hm, h1, hE]
  · intro m0 h0 hm hexp
    simp [getData, getDataGo, _ensure_token, _fetch_login_token, _build_headers,
      statusExchange, _resolve_status_url, doRequest, v4NoDataFallback, pyStrMsg,
      wCached, h0, hm, hexp, hE]

/-- Witness for the amended C7: a 404 answer from the v4 endpoint is
retried once against v3 and the v3 data is returned. -/
theorem C7_v4_fallback_amended_witness :
    getData true envC7w "SN" false 1 (wCached 5) =
      (Except.ok (some [("sn", JVal.str "X")]),
       { token := some 5, logins := 0, clears := 0,
         reqs := [_WallboxURL_V4, _WallboxURL_V3] }) :=
  (C7_v4_fallback_amended envC7w "SN" 5).2.2.2.2.1 none
    [("sn", JVal.str "X")] (some "ok") rfl rfl

end SemsWallbox
